import Mathlib

/-!
Shallow embedding of the Olist e-commerce recommendation pipeline
(`data_preprocessing.py` and `models.py`).

Tables are modelled as lists of typed rows.  The row types follow the
columns selected by the SQL query in `query_aws`; column schemas are
additionally tracked as lists of column names so that column additions and
drops (`create_total_payment_value`, `regenerate_dataset_with_indicators`)
can be stated.  Payment values, prices and review scores are rationals;
timestamps are strings until `convert_to_datetime` parses them into
structured `DateTime` values (pandas `to_datetime` with an explicit format
and the default `errors` behaviour, which raises on a non-conforming
value; the raising is modelled by `Option`).
-/

/-- A structured date-time, the result of parsing a timestamp with format
`%Y/%m/%d %H:%M:%S`. -/
structure DateTime where
  year : Nat
  month : Nat
  day : Nat
  hour : Nat
  minute : Nat
  second : Nat
deriving DecidableEq, Repr

/-- Numeric value of a decimal digit character. -/
def digitVal (c : Char) : Nat := c.toNat - 48

/-- Whether a character is a decimal digit. -/
def isDigitCh (c : Char) : Bool := 48 ≤ c.toNat && c.toNat ≤ 57

def isLeapYear (y : Nat) : Bool := (y % 4 == 0 && y % 100 != 0) || (y % 400 == 0)

def daysInMonth (y m : Nat) : Nat :=
  if m = 2 then (if isLeapYear y then 29 else 28)
  else if m = 4 ∨ m = 6 ∨ m = 9 ∨ m = 11 then 30
  else 31

/-- Parse a character list of the exact shape `YYYY/MM/DD HH:MM:SS`,
validating calendar ranges as `strptime` does.  Any other shape fails. -/
def parseTimestampChars : List Char → Option DateTime
  | [y1, y2, y3, y4, q1, m1, m2, q2, d1, d2, q3, h1, h2, q4, n1, n2, q5, s1, s2] =>
    if q1 = '/' && q2 = '/' && q3 = ' ' && q4 = ':' && q5 = ':' &&
       (isDigitCh y1 && isDigitCh y2 && isDigitCh y3 && isDigitCh y4 &&
        isDigitCh m1 && isDigitCh m2 && isDigitCh d1 && isDigitCh d2 &&
        isDigitCh h1 && isDigitCh h2 && isDigitCh n1 && isDigitCh n2 &&
        isDigitCh s1 && isDigitCh s2) then
      let y := digitVal y1 * 1000 + digitVal y2 * 100 + digitVal y3 * 10 + digitVal y4
      let mo := digitVal m1 * 10 + digitVal m2
      let da := digitVal d1 * 10 + digitVal d2
      let ho := digitVal h1 * 10 + digitVal h2
      let mi := digitVal n1 * 10 + digitVal n2
      let se := digitVal s1 * 10 + digitVal s2
      if 1 ≤ mo && mo ≤ 12 && 1 ≤ da && da ≤ daysInMonth y mo &&
         ho ≤ 23 && mi ≤ 59 && se ≤ 59 then
        some ⟨y, mo, da, ho, mi, se⟩
      else none
    else none
  | _ => none

/-- `pd.to_datetime(s, format="%Y/%m/%d %H:%M:%S")` on a single value. -/
def parseTimestamp (s : String) : Option DateTime := parseTimestampChars s.data

/-- Two-digit zero-padded decimal rendering. -/
def pad2 (n : Nat) : List Char := [Nat.digitChar (n / 10), Nat.digitChar (n % 10)]

/-- Four-digit zero-padded decimal rendering. -/
def pad4 (n : Nat) : List Char :=
  [Nat.digitChar (n / 1000), Nat.digitChar (n / 100 % 10),
   Nat.digitChar (n / 10 % 10), Nat.digitChar (n % 10)]

/-- The canonical `YYYY/MM/DD HH:MM:SS` rendering of a date-time.  A string
conforms to the spec's timestamp format exactly when it is the rendering of
some valid date-time. -/
def renderTimestamp (dt : DateTime) : String :=
  ⟨pad4 dt.year ++ '/' :: (pad2 dt.month ++ '/' :: (pad2 dt.day ++ ' ' ::
   (pad2 dt.hour ++ ':' :: (pad2 dt.minute ++ ':' :: pad2 dt.second))))⟩

/-- Field ranges under which a `DateTime` denotes a real calendar
date-time renderable in the `YYYY/MM/DD HH:MM:SS` format. -/
def ValidDateTime (dt : DateTime) : Prop :=
  dt.year ≤ 9999 ∧ 1 ≤ dt.month ∧ dt.month ≤ 12 ∧ 1 ≤ dt.day ∧
  dt.day ≤ daysInMonth dt.year dt.month ∧
  dt.hour ≤ 23 ∧ dt.minute ≤ 59 ∧ dt.second ≤ 59

instance (dt : DateTime) : Decidable (ValidDateTime dt) := by
  unfold ValidDateTime; infer_instance

/-! ### Row types

`RawRow` is one row of the `query_aws` result (one row per order line and
payment line, joined with customer/review/product/seller facts).  The query
selects `sellers.seller_state` twice; the duplicated column carries the same
value, so the row type has a single field for it while the schema lists it
twice. -/

structure RawRow where
  customer_unique_id : String
  customer_zip_code_prefix : String
  customer_city : String
  customer_state : String
  order_id : String
  product_id : String
  seller_id : String
  price : Rat
  order_purchase_timestamp : String
  order_delivered_customer_date : String
  order_estimated_delivery_date : String
  payment_type : String
  payment_installments : Int
  payment_value : Rat
  review_score : Rat
  product_weight_g : Rat
  product_category_name_english : String
  seller_zip_code_prefix : String
  seller_state : String
deriving DecidableEq, Repr

/-- Row after `create_total_payment_value`: `payment_value` is dropped and
`total_payment` added. -/
structure CleanRow where
  customer_unique_id : String
  customer_zip_code_prefix : String
  customer_city : String
  customer_state : String
  order_id : String
  product_id : String
  seller_id : String
  price : Rat
  order_purchase_timestamp : String
  order_delivered_customer_date : String
  order_estimated_delivery_date : String
  payment_type : String
  payment_installments : Int
  review_score : Rat
  product_weight_g : Rat
  product_category_name_english : String
  seller_zip_code_prefix : String
  seller_state : String
  total_payment : Rat
deriving DecidableEq, Repr

/-- Row after `convert_to_datetime`: the three timestamp columns hold
structured date-times. -/
structure DtRow where
  customer_unique_id : String
  customer_zip_code_prefix : String
  customer_city : String
  customer_state : String
  order_id : String
  product_id : String
  seller_id : String
  price : Rat
  order_purchase_timestamp : DateTime
  order_delivered_customer_date : DateTime
  order_estimated_delivery_date : DateTime
  payment_type : String
  payment_installments : Int
  review_score : Rat
  product_weight_g : Rat
  product_category_name_english : String
  seller_zip_code_prefix : String
  seller_state : String
  total_payment : Rat
deriving DecidableEq, Repr

/-! ### Column schemas -/

def rawSchema : List String :=
  ["customer_unique_id", "customer_zip_code_prefix", "customer_city",
   "customer_state", "order_id", "product_id", "seller_id", "price",
   "order_purchase_timestamp", "order_delivered_customer_date",
   "order_estimated_delivery_date", "payment_type", "payment_installments",
   "payment_value", "review_score", "product_weight_g",
   "product_category_name_english", "seller_zip_code_prefix",
   "seller_state", "seller_state"]

/-- Schema after `create_total_payment_value`: `total_payment` appended by
column assignment, then `payment_value` removed by `drop(axis=1)`. -/
def cleanSchema : List String :=
  (rawSchema ++ ["total_payment"]).filter (fun c => c ≠ "payment_value")

/-- `convert_to_datetime` changes column dtypes, not the schema. -/
def dtSchema : List String := cleanSchema

/-- Schema of the concatenation inside `regenerate_dataset_with_indicators`
after the `repeater` column assignments. -/
def combinedSchema : List String := dtSchema ++ ["repeater"]

/-! ### data_preprocessing.py : cleaning -/

/-- The `groupby(data['order_id']).transform('sum')` value for one order:
the sum of `payment_value` over all rows of that order. -/
def orderTotal (data : List RawRow) (oid : String) : Rat :=
  ((data.filter (fun r => r.order_id = oid)).map (fun r => r.payment_value)).sum

/-- `create_total_payment_value`: every row gains a `total_payment` column
holding the per-order sum of `payment_value`; the `payment_value` column is
then dropped. -/
def create_total_payment_value (data : List RawRow) : List CleanRow :=
  data.map (fun r =>
    { customer_unique_id := r.customer_unique_id
      customer_zip_code_prefix := RawRow.customer_zip_code_prefix r
      customer_city := r.customer_city
      customer_state := r.customer_state
      order_id := r.order_id
      product_id := r.product_id
      seller_id := r.seller_id
      price := r.price
      order_purchase_timestamp := r.order_purchase_timestamp
      order_delivered_customer_date := r.order_delivered_customer_date
      order_estimated_delivery_date := r.order_estimated_delivery_date
      payment_type := r.payment_type
      payment_installments := r.payment_installments
      review_score := r.review_score
      product_weight_g := r.product_weight_g
      product_category_name_english := r.product_category_name_english
      seller_zip_code_prefix := RawRow.seller_zip_code_prefix r
      seller_state := r.seller_state
      total_payment := orderTotal data r.order_id })

/-- `drop_duplicates(keep='first')`: keep the first occurrence of each
row value, in order. -/
def dropDuplicatesAux {α : Type} [DecidableEq α] : List α → List α → List α
  | _, [] => []
  | seen, x :: xs =>
      if x ∈ seen then dropDuplicatesAux seen xs
      else x :: dropDuplicatesAux (x :: seen) xs

def dropDuplicates {α : Type} [DecidableEq α] (data : List α) : List α :=
  dropDuplicatesAux [] data

/-- `duplicates`: drops exact-duplicate rows, keeping first occurrences. -/
def duplicates (data : List CleanRow) : List CleanRow :=
  dropDuplicates data

/-- `convert_to_datetime` on one row: the three timestamp columns must all
parse under `%Y/%m/%d %H:%M:%S`. -/
def convertRow (r : CleanRow) : Option DtRow := do
  let p ← parseTimestamp r.order_purchase_timestamp
  let d ← parseTimestamp r.order_delivered_customer_date
  let e ← parseTimestamp r.order_estimated_delivery_date
  pure
    { customer_unique_id := r.customer_unique_id
      customer_zip_code_prefix := CleanRow.customer_zip_code_prefix r
      customer_city := r.customer_city
      customer_state := r.customer_state
      order_id := r.order_id
      product_id := r.product_id
      seller_id := r.seller_id
      price := r.price
      order_purchase_timestamp := p
      order_delivered_customer_date := d
      order_estimated_delivery_date := e
      payment_type := r.payment_type
      payment_installments := r.payment_installments
      review_score := r.review_score
      product_weight_g := r.product_weight_g
      product_category_name_english := r.product_category_name_english
      seller_zip_code_prefix := CleanRow.seller_zip_code_prefix r
      seller_state := r.seller_state
      total_payment := r.total_payment }

/-- `convert_to_datetime`: parses the three timestamp columns of every row;
a single non-conforming value makes the whole call fail (pandas raises),
modelled by `none` — no row is ever coerced to a null. -/
def convert_to_datetime : List CleanRow → Option (List DtRow)
  | [] => some []
  | r :: rs => do
    let r' ← convertRow r
    let rs' ← convert_to_datetime rs
    pure (r' :: rs')

/-! ### data_preprocessing.py : feature engineering -/

/-- Size of a customer's group under `groupby('customer_unique_id')`:
the number of rows carrying that identifier. -/
def customerRowCount (data : List DtRow) (cid : String) : Nat :=
  (data.filter (fun r => r.customer_unique_id = cid)).length

/-- `repeat_and_first_time`: `groupby('customer_unique_id').filter` keeps,
in original row order, the rows whose group has more than one row
(repeaters), respectively exactly one row (first-timers). -/
def repeat_and_first_time (data : List DtRow) : List DtRow × List DtRow :=
  (data.filter (fun r => 1 < customerRowCount data r.customer_unique_id),
   data.filter (fun r => customerRowCount data r.customer_unique_id = 1))

/-- A row of the concatenated dataset with its `repeater` indicator. -/
structure LabeledRow where
  base : DtRow
  repeater : Nat
deriving DecidableEq, Repr

/-- `regenerate_dataset_with_indicators`: assigns `repeater = 1` on the
repeater rows and `0` on the first-timer rows, concatenates, then calls
`drop('Unnamed: 0', axis=1)` followed by `reset_index()`.  `drop` with the
default `errors='raise'` raises a `KeyError` when the named column is
absent, which is modelled by `Except.error`; on success the reset index is
modelled by pairing each row with its position. -/
def regenerate_dataset_with_indicators (repeaters first_timers : List DtRow) :
    Except String (List (Nat × LabeledRow)) :=
  let reps := repeaters.map (fun r => LabeledRow.mk r 1)
  let fts := first_timers.map (fun r => LabeledRow.mk r 0)
  let combined := reps ++ fts
  if "Unnamed: 0" ∈ combinedSchema then .ok combined.enum
  else .error "KeyError: ['Unnamed: 0'] not found in axis"

/-- Output row of `create_user_ratings_df` after the column renames. -/
structure RatingRow where
  customer_unique_id : String
  productId : String
  estimator : Rat
deriving DecidableEq, Repr

/-- Schema of the rating table: `reset_index` yields
`[customer_unique_id, product_id, mean]`, then the renames apply. -/
def ratingSchema : List String :=
  ["customer_unique_id", "product_id", "mean"].map (fun c =>
    if c = "mean" then "estimator"
    else if c = "product_id" then "productId" else c)

/-- The distinct `(customer_unique_id, product_id)` group keys. -/
def groupKeys (data : List DtRow) : List (String × String) :=
  dropDuplicates (data.map (fun r => (r.customer_unique_id, r.product_id)))

/-- Mean review score of one `(customer, product)` group. -/
def meanReviewScore (data : List DtRow) (cid pid : String) : Rat :=
  let g := data.filter (fun r =>
    r.customer_unique_id = cid ∧ r.product_id = pid)
  ((g.map (fun r => r.review_score)).sum) / g.length

/-- `create_user_ratings_df`: group by (customer, product), aggregate the
mean review score, rename to the fixed `customer_unique_id / productId /
estimator` schema. -/
def create_user_ratings_df (data : List DtRow) : List RatingRow :=
  (groupKeys data).map (fun k =>
    { customer_unique_id := k.1, productId := k.2,
      estimator := meanReviewScore data k.1 k.2 })

/-! ### models.py : popularity rankings

`find_popular_items` and `popular_in_your_area` read only the `product_id`
and `customer_state` columns of the combined dataset, so their input rows
are modelled by just those two columns. -/

structure ModelRow where
  product_id : String
  customer_state : String
deriving DecidableEq, Repr

/-- Number of rows purchasing a given product. -/
def productCount (data : List ModelRow) (pid : String) : Nat :=
  (data.filter (fun r => r.product_id = pid)).length

/-- `value_counts()`: each distinct product (first-occurrence order) with
its occurrence count. -/
def value_counts (data : List ModelRow) : List (String × Nat) :=
  (dropDuplicates (data.map (fun r => r.product_id))).map
    (fun p => (p, productCount data p))

/-- Comparison used by `sort_values(ascending=False)`: larger counts first. -/
def countGE (a b : String × Nat) : Prop := b.2 ≤ a.2

instance : DecidableRel countGE := fun a b => by
  unfold countGE; infer_instance

instance : IsTotal (String × Nat) countGE :=
  ⟨fun a b => le_total b.2 a.2⟩

instance : IsTrans (String × Nat) countGE :=
  ⟨fun _ _ _ h1 h2 => le_trans h2 h1⟩

/-- The `value_counts().sort_values(ascending=False)[:n].index` idiom shared
by `find_popular_items` and the per-state loop of `popular_in_your_area`. -/
def topProducts (data : List ModelRow) (n_recs : Nat) : List String :=
  (((value_counts data).insertionSort countGE).map Prod.fst).take n_recs

/-- `find_popular_items`: the `n_recs` most purchased products. -/
def find_popular_items (data : List ModelRow) (n_recs : Nat) : List String :=
  topProducts data n_recs

/-- The distinct states in first-occurrence order
(`data.customer_state.unique()`). -/
def unique_states (data : List ModelRow) : List String :=
  dropDuplicates (data.map (fun r => r.customer_state))

/-- One iteration of the loop in `popular_in_your_area`: restrict to one
state's rows and take the top products there. -/
def stateTopItems (data : List ModelRow) (n_recs : Nat) (st : String) :
    List String :=
  topProducts (data.filter (fun r => r.customer_state = st)) n_recs

/-- Whether all lists in a dict-of-arrays have the same length, the check
`pd.DataFrame` performs on a dict of `Index` values. -/
def allSameLength (ls : List Nat) : Bool :=
  match ls with
  | [] => true
  | x :: xs => xs.all (fun y => y == x)

/-- `popular_in_your_area`: per-state top lists collected into a dict, then
assembled with `pd.DataFrame`.  The per-state values are `Index` objects
(plain arrays), so the constructor requires all of them to have the same
length and raises a `ValueError` otherwise; this is modelled by `Except`. -/
def popular_in_your_area (data : List ModelRow) (n_recs : Nat) :
    Except String (List (String × List String)) :=
  let cols := (unique_states data).map
    (fun st => (st, stateTopItems data n_recs st))
  if allSameLength (cols.map (fun c => c.2.length)) then .ok cols
  else .error "ValueError: All arrays must be of the same length"

/-! ### Spec-side definitions

`customerOrderCount` renders the spec's phrase "a customer identifier
appearing in more than one order": the number of distinct `order_id`
values among the rows of that customer.  It is compared against the code's
row-count based grouping. -/

def customerOrderCount (data : List DtRow) (cid : String) : Nat :=
  (dropDuplicates ((data.filter (fun r => r.customer_unique_id = cid)).map
    (fun r => r.order_id))).length

/-! ### Concrete tables used by witnesses and counterexamples -/

def rawBase : RawRow :=
  { customer_unique_id := "c1", customer_zip_code_prefix := "11111",
    customer_city := "sao paulo", customer_state := "SP",
    order_id := "o1", product_id := "p1", seller_id := "s1", price := 100,
    order_purchase_timestamp := "2018/05/01 10:00:00",
    order_delivered_customer_date := "2018/05/05 10:00:00",
    order_estimated_delivery_date := "2018/05/10 10:00:00",
    payment_type := "voucher", payment_installments := 1,
    payment_value := 30, review_score := 4, product_weight_g := 500,
    product_category_name_english := "toys",
    seller_zip_code_prefix := "22222", seller_state := "SP" }

/-- One order, two payment lines of value 30 and 20 (a voucher split). -/
def voucherData : List RawRow :=
  [rawBase, { rawBase with payment_value := 20, payment_type := "credit_card" }]

def cleanBase : CleanRow :=
  { customer_unique_id := "c1", customer_zip_code_prefix := "11111",
    customer_city := "sao paulo", customer_state := "SP",
    order_id := "o1", product_id := "p1", seller_id := "s1", price := 100,
    order_purchase_timestamp := "2018/05/01 10:00:00",
    order_delivered_customer_date := "2018/05/05 10:00:00",
    order_estimated_delivery_date := "2018/05/10 10:00:00",
    payment_type := "voucher", payment_installments := 1,
    review_score := 4, product_weight_g := 500,
    product_category_name_english := "toys",
    seller_zip_code_prefix := "22222", seller_state := "SP",
    total_payment := 50 }

/-- A row whose purchase timestamp is in the wrong `MM/DD/YYYY` format. -/
def cleanBad : CleanRow :=
  { cleanBase with order_purchase_timestamp := "05/01/2018" }

def dtBase : DtRow :=
  { customer_unique_id := "c1", customer_zip_code_prefix := "11111",
    customer_city := "sao paulo", customer_state := "SP",
    order_id := "o1", product_id := "p1", seller_id := "s1", price := 100,
    order_purchase_timestamp := ⟨2018, 5, 1, 10, 0, 0⟩,
    order_delivered_customer_date := ⟨2018, 5, 5, 10, 0, 0⟩,
    order_estimated_delivery_date := ⟨2018, 5, 10, 10, 0, 0⟩,
    payment_type := "voucher", payment_installments := 1,
    review_score := 4, product_weight_g := 500,
    product_category_name_english := "toys",
    seller_zip_code_prefix := "22222", seller_state := "SP",
    total_payment := 50 }

/-- One customer, ONE order, two order lines (two products): two rows with
the same `customer_unique_id` and the same `order_id`. -/
def multiLineOrderData : List DtRow :=
  [dtBase, { dtBase with product_id := "p2" }]

/-- A repeat customer rating the same product 4 in one order and 5 in
another. -/
def ratingData : List DtRow :=
  [dtBase, { dtBase with order_id := "o2", review_score := 5 }]

/-- Product purchase counts A:5, B:3, C:3, D:1. -/
def hotData : List ModelRow :=
  [⟨"A", "SP"⟩, ⟨"A", "SP"⟩, ⟨"A", "SP"⟩, ⟨"A", "SP"⟩, ⟨"A", "SP"⟩,
   ⟨"B", "SP"⟩, ⟨"B", "SP"⟩, ⟨"B", "SP"⟩,
   ⟨"C", "SP"⟩, ⟨"C", "SP"⟩, ⟨"C", "SP"⟩,
   ⟨"D", "SP"⟩]

/-- Two states: SP has two distinct products, RJ has a single one. -/
def areaData : List ModelRow :=
  [⟨"p1", "SP"⟩, ⟨"p2", "SP"⟩, ⟨"p3", "RJ"⟩]

/-! ### Helper lemmas about `dropDuplicates` -/

theorem mem_dropDuplicatesAux {α : Type} [DecidableEq α] (seen l : List α)
    (a : α) : a ∈ dropDuplicatesAux seen l ↔ a ∈ l ∧ a ∉ seen := by
  induction l generalizing seen with
  | nil => simp [dropDuplicatesAux]
  | cons x xs ih =>
    by_cases hx : x ∈ seen
    · rw [dropDuplicatesAux, if_pos hx, ih]
      constructor
      · rintro ⟨h1, h2⟩; exact ⟨List.mem_cons_of_mem _ h1, h2⟩
      · rintro ⟨h1, h2⟩
        rcases List.mem_cons.mp h1 with rfl | h1
        · exact absurd hx h2
        · exact ⟨h1, h2⟩
    · rw [dropDuplicatesAux, if_neg hx]
      constructor
      · intro hmem
        rcases List.mem_cons.mp hmem with rfl | hmem
        · exact ⟨List.mem_cons_self _ _, hx⟩
        · obtain ⟨h1, h2⟩ := (ih _).mp hmem
          exact ⟨List.mem_cons_of_mem _ h1,
            fun hs => h2 (List.mem_cons_of_mem _ hs)⟩
      · rintro ⟨h1, h2⟩
        rcases List.mem_cons.mp h1 with rfl | h1
        · exact List.mem_cons_self _ _
        · by_cases hax : a = x
          · subst hax; exact List.mem_cons_self _ _
          · refine List.mem_cons_of_mem _ ((ih _).mpr ⟨h1, ?_⟩)
            intro hs
            rcases List.mem_cons.mp hs with h | h
            · exact hax h
            · exact h2 h

theorem nodup_dropDuplicatesAux {α : Type} [DecidableEq α] (seen l : List α) :
    (dropDuplicatesAux seen l).Nodup := by
  induction l generalizing seen with
  | nil => simp [dropDuplicatesAux]
  | cons x xs ih =>
    by_cases hx : x ∈ seen
    · rw [dropDuplicatesAux, if_pos hx]; exact ih seen
    · rw [dropDuplicatesAux, if_neg hx]
      refine List.nodup_cons.mpr ⟨?_, ih (x :: seen)⟩
      intro hmem
      exact ((mem_dropDuplicatesAux _ _ _).mp hmem).2 (List.mem_cons_self x seen)

theorem dropDuplicatesAux_eq_self {α : Type} [DecidableEq α] (seen l : List α)
    (hn : l.Nodup) (hd : ∀ a ∈ l, a ∉ seen) : dropDuplicatesAux seen l = l := by
  induction l generalizing seen with
  | nil => rfl
  | cons x xs ih =>
    have hx : x ∉ seen := hd x (List.mem_cons_self x xs)
    rw [dropDuplicatesAux, if_neg hx]
    congr 1
    refine ih (x :: seen) (List.nodup_cons.mp hn).2 ?_
    intro a ha hmem
    rcases List.mem_cons.mp hmem with rfl | hs
    · exact (List.nodup_cons.mp hn).1 ha
    · exact hd a (List.mem_cons_of_mem _ ha) hs

theorem mem_dropDuplicates {α : Type} [DecidableEq α] (l : List α) (a : α) :
    a ∈ dropDuplicates l ↔ a ∈ l := by
  rw [dropDuplicates, mem_dropDuplicatesAux]
  simp

theorem nodup_dropDuplicates {α : Type} [DecidableEq α] (l : List α) :
    (dropDuplicates l).Nodup :=
  nodup_dropDuplicatesAux [] l

theorem dropDuplicates_idem {α : Type} [DecidableEq α] (l : List α) :
    dropDuplicates (dropDuplicates l) = dropDuplicates l :=
  dropDuplicatesAux_eq_self [] (dropDuplicates l) (nodup_dropDuplicates l)
    (by simp)

/-- C9: deduplication is idempotent — applying `duplicates` to an already
deduplicated table yields an identical result. -/
theorem duplicates_idempotent (data : List CleanRow) :
    duplicates (duplicates data) = duplicates data :=
  dropDuplicates_idem data

/-- C1: for an order whose payment lines are `[30, 20]` (a voucher split),
after `create_total_payment_value` every row of that order carries
`total_payment = 50`, and the `payment_value` column is absent from the
output schema. -/
theorem total_payment_voucher_split (data : List RawRow) (oid : String)
    (h : (data.filter (fun r => r.order_id = oid)).map
          (fun r => r.payment_value) = [30, 20]) :
    (∀ r ∈ create_total_payment_value data,
        r.order_id = oid → r.total_payment = 50) ∧
    "payment_value" ∉ cleanSchema := by
  constructor
  · intro r hr hoid
    rw [create_total_payment_value, List.mem_map] at hr
    obtain ⟨x, hx, rfl⟩ := hr
    replace hoid : x.order_id = oid := hoid
    show orderTotal data x.order_id = 50
    rw [hoid, orderTotal, h]
    norm_num
  · decide

theorem total_payment_voucher_split_witness :
    (∀ r ∈ create_total_payment_value voucherData,
        r.order_id = "o1" → r.total_payment = 50) ∧
    "payment_value" ∉ cleanSchema :=
  total_payment_voucher_split voucherData "o1" (by decide)

/-! ### Partition lemmas -/

theorem count_filter_add_count_filter {α : Type} [DecidableEq α]
    (l : List α) (p q : α → Bool)
    (hpq : ∀ a ∈ l, (p a = true ∧ q a = false) ∨ (p a = false ∧ q a = true))
    (a : α) :
    (l.filter p).count a + (l.filter q).count a = l.count a := by
  induction l with
  | nil => rfl
  | cons x xs ih =>
    have hx := hpq x (List.mem_cons_self x xs)
    have ih' := ih (fun b hb => hpq b (List.mem_cons_of_mem _ hb))
    rcases hx with ⟨hp, hq⟩ | ⟨hp, hq⟩
    · rw [List.filter_cons, List.filter_cons, if_pos hp, if_neg (by simp [hq])]
      by_cases hax : a = x
      · subst hax
        rw [List.count_cons_self, List.count_cons_self]
        omega
      · rw [List.count_cons_of_ne hax, List.count_cons_of_ne hax]
        omega
    · rw [List.filter_cons, List.filter_cons, if_neg (by simp [hp]), if_pos hq]
      by_cases hax : a = x
      · subst hax
        rw [List.count_cons_self, List.count_cons_self]
        omega
      · rw [List.count_cons_of_ne hax, List.count_cons_of_ne hax]
        omega

theorem customerRowCount_pos (data : List DtRow) (r : DtRow) (h : r ∈ data) :
    0 < customerRowCount data r.customer_unique_id := by
  rw [customerRowCount]
  exact List.length_pos_of_mem (List.mem_filter.mpr ⟨h, by simp⟩)

/-- C2: the repeat-customer and first-time-customer subsets produced by
`repeat_and_first_time` form a disjoint, exhaustive partition of the input:
every input row occurrence lands in exactly one of the two subsets. -/
theorem repeat_first_time_partition (data : List DtRow) (r : DtRow) :
    (repeat_and_first_time data).1.count r +
      (repeat_and_first_time data).2.count r = data.count r := by
  rw [repeat_and_first_time]
  apply count_filter_add_count_filter
  intro a ha
  have hpos : 0 < customerRowCount data a.customer_unique_id :=
    customerRowCount_pos data a ha
  by_cases h : 1 < customerRowCount data a.customer_unique_id
  · left
    constructor
    · simpa using h
    · simp only [decide_eq_false_iff_not]
      omega
  · right
    constructor
    · simpa using h
    · simp only [decide_eq_true_eq]
      omega

/-- C3 counterexample: a customer with a single order holding two order
lines (two rows with the same `order_id`).  The customer appears in exactly
one order, yet is placed in the repeat subset and not in the first-time
subset, refuting "repeat iff more than one order / first-time iff exactly
one order". -/
theorem repeater_by_orders_cex :
    customerOrderCount multiLineOrderData "c1" = 1 ∧
    ¬ (dtBase ∈ (repeat_and_first_time multiLineOrderData).1 ↔
        1 < customerOrderCount multiLineOrderData "c1") ∧
    ¬ (dtBase ∈ (repeat_and_first_time multiLineOrderData).2 ↔
        customerOrderCount multiLineOrderData "c1" = 1) := by decide

/-- C3 amended: a row is placed in the repeat subset iff its customer
identifier appears in more than one ROW of the cleaned table, and in the
first-time subset iff it appears in exactly one row (the code counts group
rows, not distinct orders). -/
theorem repeater_by_row_count (data : List DtRow) (r : DtRow) (h : r ∈ data) :
    (r ∈ (repeat_and_first_time data).1 ↔
        1 < customerRowCount data r.customer_unique_id) ∧
    (r ∈ (repeat_and_first_time data).2 ↔
        customerRowCount data r.customer_unique_id = 1) := by
  rw [repeat_and_first_time]
  constructor <;> simp [List.mem_filter, h]

theorem repeater_by_row_count_witness :
    (dtBase ∈ (repeat_and_first_time multiLineOrderData).1 ↔
        1 < customerRowCount multiLineOrderData dtBase.customer_unique_id) ∧
    (dtBase ∈ (repeat_and_first_time multiLineOrderData).2 ↔
        customerRowCount multiLineOrderData dtBase.customer_unique_id = 1) :=
  repeater_by_row_count multiLineOrderData dtBase (by decide)

/-- C4 (code bug): `regenerate_dataset_with_indicators` drops the column
`'Unnamed: 0'`, but in the pipeline the concatenated table's schema is the
query schema plus `repeater` and never contains such a column, so the
`drop` raises a `KeyError` instead of producing the combined artifact.
Evaluated here on a one-row repeat subset and an empty first-time subset. -/
theorem regenerate_raises_keyerror :
    regenerate_dataset_with_indicators [dtBase] [] =
      .error "KeyError: ['Unnamed: 0'] not found in axis" ∧
    "Unnamed: 0" ∉ combinedSchema := by
  constructor
  · rfl
  · decide

/-! ### Timestamp parsing lemmas -/

theorem digitVal_digitChar : ∀ n, n < 10 → digitVal (Nat.digitChar n) = n := by
  decide

theorem isDigitCh_digitChar : ∀ n, n < 10 →
    isDigitCh (Nat.digitChar n) = true := by
  decide

theorem daysInMonth_le (y m : Nat) : daysInMonth y m ≤ 31 := by
  rw [daysInMonth]
  by_cases h2 : m = 2
  · rw [if_pos h2]
    by_cases hl : isLeapYear y <;> simp [hl]
  · rw [if_neg h2]
    split <;> omega

theorem parseTimestamp_renderTimestamp (dt : DateTime)
    (h : ValidDateTime dt) :
    parseTimestamp (renderTimestamp dt) = some dt := by
  obtain ⟨y, mo, da, ho, mi, se⟩ := dt
  obtain ⟨hy, hm1, hm2, hd1, hd2, hh, hmi2, hs2⟩ := h
  dsimp only at hy hm1 hm2 hd1 hd2 hh hmi2 hs2
  have hda31 : da ≤ 31 := le_trans hd2 (daysInMonth_le y mo)
  show parseTimestampChars _ = _
  simp only [renderTimestamp, pad4, pad2, List.cons_append, List.nil_append]
  rw [parseTimestampChars]
  rw [if_pos (by
    simp (disch := omega) only [isDigitCh_digitChar, decide_True,
      Bool.and_self, Bool.and_true, Bool.true_and])]
  simp (disch := omega) only [digitVal_digitChar]
  have ey : y / 1000 * 1000 + y / 100 % 10 * 100 + y / 10 % 10 * 10 + y % 10
      = y := by omega
  have emo : mo / 10 * 10 + mo % 10 = mo := by omega
  have eda : da / 10 * 10 + da % 10 = da := by omega
  have eho : ho / 10 * 10 + ho % 10 = ho := by omega
  have emi : mi / 10 * 10 + mi % 10 = mi := by omega
  have ese : se / 10 * 10 + se % 10 = se := by omega
  rw [ey, emo, eda, eho, emi, ese]
  rw [if_pos (by
    simp only [Bool.and_eq_true, decide_eq_true_eq]
    refine ⟨⟨⟨⟨⟨⟨?_, ?_⟩, ?_⟩, ?_⟩, ?_⟩, ?_⟩, ?_⟩ <;> omega)]

theorem convert_to_datetime_fails_of_mem (data : List CleanRow)
    (r : CleanRow) (hr : r ∈ data)
    (hp : parseTimestamp r.order_purchase_timestamp = none) :
    convert_to_datetime data = none := by
  induction data with
  | nil => cases hr
  | cons x xs ih =>
    rcases List.mem_cons.mp hr with rfl | hx
    · simp [convert_to_datetime, convertRow, hp]
    · have ht : convert_to_datetime xs = none := ih hx
      cases hcx : convertRow x <;> simp [convert_to_datetime, hcx, ht]

/-- C5: timestamp conversion parses every string conforming to the
`YYYY/MM/DD HH:MM:SS` format (deterministically, to the date-time it
renders); a wrongly formatted value such as `"05/01/2018"` fails to parse,
and its presence makes the whole `convert_to_datetime` call fail rather
than produce a null. -/
theorem convert_to_datetime_format_gate :
    (∀ dt : DateTime, ValidDateTime dt →
        parseTimestamp (renderTimestamp dt) = some dt) ∧
    parseTimestamp "05/01/2018" = none ∧
    (∀ (data : List CleanRow) (r : CleanRow), r ∈ data →
        r.order_purchase_timestamp = "05/01/2018" →
        convert_to_datetime data = none) := by
  refine ⟨parseTimestamp_renderTimestamp, by decide, ?_⟩
  intro data r hr hts
  exact convert_to_datetime_fails_of_mem data r hr (by rw [hts]; decide)

theorem convert_to_datetime_format_gate_witness :
    parseTimestamp (renderTimestamp ⟨2018, 5, 1, 10, 0, 0⟩) =
      some ⟨2018, 5, 1, 10, 0, 0⟩ ∧
    convert_to_datetime [cleanBad] = none :=
  ⟨convert_to_datetime_format_gate.1 ⟨2018, 5, 1, 10, 0, 0⟩ (by decide),
   convert_to_datetime_format_gate.2.2 [cleanBad] cleanBad
     (List.mem_singleton.mpr rfl) rfl⟩

/-! ### Grouping lemmas -/

theorem filter_map_eq_single {α β : Type} [DecidableEq α] (keys : List α)
    (f : α → β) (p : β → Bool) (k0 : α) (hk : k0 ∈ keys) (hnd : keys.Nodup)
    (hp : ∀ k ∈ keys, (p (f k) = true ↔ k = k0)) :
    (keys.map f).filter p = [f k0] := by
  induction keys with
  | nil => cases hk
  | cons x xs ih =>
    rcases List.mem_cons.mp hk with rfl | hx
    · rw [List.map_cons, List.filter_cons,
        if_pos ((hp k0 (List.mem_cons_self k0 xs)).mpr rfl)]
      have hnil : (xs.map f).filter p = [] := by
        rw [List.filter_eq_nil_iff]
        intro b hb
        obtain ⟨k, hkxs, rfl⟩ := List.mem_map.mp hb
        intro hpk
        have hkx := (hp k (List.mem_cons_of_mem _ hkxs)).mp hpk
        subst hkx
        exact (List.nodup_cons.mp hnd).1 hkxs
      rw [hnil]
    · have hpx : ¬ p (f x) = true := by
        intro hpfx
        have hx0 := (hp x (List.mem_cons_self x xs)).mp hpfx
        subst hx0
        exact (List.nodup_cons.mp hnd).1 hx
      rw [List.map_cons, List.filter_cons, if_neg hpx]
      exact ih hx (List.nodup_cons.mp hnd).2
        (fun k hkk => hp k (List.mem_cons_of_mem _ hkk))

/-- C6: `create_user_ratings_df` groups the repeat-customer table by
(customer, product) and emits, for each pair present, exactly one row whose
`estimator` is the mean review score, under the fixed renamed schema. -/
theorem create_user_ratings_mean (data : List DtRow) (cid pid : String)
    (h : ∃ r ∈ data, r.customer_unique_id = cid ∧ r.product_id = pid) :
    (create_user_ratings_df data).filter
        (fun w => w.customer_unique_id = cid ∧ w.productId = pid) =
      [{ customer_unique_id := cid, productId := pid,
         estimator := meanReviewScore data cid pid }] ∧
    ratingSchema = ["customer_unique_id", "productId", "estimator"] := by
  refine ⟨?_, by decide⟩
  rw [create_user_ratings_df]
  refine filter_map_eq_single (groupKeys data) _ _ (cid, pid) ?_ ?_ ?_
  · obtain ⟨r, hr, h1, h2⟩ := h
    rw [groupKeys, mem_dropDuplicates]
    exact List.mem_map.mpr ⟨r, hr, by rw [h1, h2]⟩
  · exact nodup_dropDuplicates _
  · intro k hk
    constructor
    · intro hpk
      simp only [decide_eq_true_eq] at hpk
      exact Prod.ext hpk.1 hpk.2
    · rintro rfl
      simp

theorem create_user_ratings_mean_witness :
    (create_user_ratings_df ratingData).filter
        (fun w => w.customer_unique_id = "c1" ∧ w.productId = "p1") =
      [{ customer_unique_id := "c1", productId := "p1",
         estimator := (9 : Rat) / 2 }] ∧
    ratingSchema = ["customer_unique_id", "productId", "estimator"] := by
  have h := create_user_ratings_mean ratingData "c1" "p1"
    ⟨dtBase, by simp [ratingData], rfl, rfl⟩
  have hm : meanReviewScore ratingData "c1" "p1" = (9 : Rat) / 2 := by
    norm_num [meanReviewScore, ratingData, dtBase]
  rw [hm] at h
  exact h

/-! ### Popularity ranking lemmas -/

theorem map_fst_value_counts (data : List ModelRow) :
    (value_counts data).map Prod.fst =
      dropDuplicates (data.map (fun r => r.product_id)) := by
  rw [value_counts, List.map_map]
  simp [Function.comp_def]

theorem snd_of_mem_value_counts (data : List ModelRow) (pc : String × Nat)
    (h : pc ∈ value_counts data) : pc.2 = productCount data pc.1 := by
  rw [value_counts, List.mem_map] at h
  obtain ⟨p, hp, rfl⟩ := h
  rfl

theorem mem_topProducts (data : List ModelRow) (n : Nat) (p : String)
    (h : p ∈ topProducts data n) : ∃ r ∈ data, r.product_id = p := by
  rw [topProducts] at h
  have h1 := List.take_subset _ _ h
  rw [List.mem_map] at h1
  obtain ⟨pc, hpc, rfl⟩ := h1
  rw [List.mem_insertionSort, value_counts, List.mem_map] at hpc
  obtain ⟨q, hq, rfl⟩ := hpc
  rw [mem_dropDuplicates, List.mem_map] at hq
  obtain ⟨r, hr, rfl⟩ := hq
  exact ⟨r, hr, rfl⟩

theorem sorted_topProducts (data : List ModelRow) (n : Nat) :
    (topProducts data n).Sorted
      (fun p q => productCount data q ≤ productCount data p) := by
  rw [topProducts]
  have hs : ((value_counts data).insertionSort countGE).Sorted countGE :=
    List.sorted_insertionSort countGE _
  have hmem : ∀ pc ∈ (value_counts data).insertionSort countGE,
      pc.2 = productCount data pc.1 := fun pc hpc =>
    snd_of_mem_value_counts data pc (by rwa [List.mem_insertionSort] at hpc)
  have hp : (((value_counts data).insertionSort countGE).map
      Prod.fst).Pairwise (fun p q => productCount data q ≤ productCount data p) := by
    rw [List.pairwise_map]
    refine List.Pairwise.imp_of_mem ?_ hs
    intro a b ha hb hab
    rw [← hmem a ha, ← hmem b hb]
    exact hab
  exact List.Pairwise.sublist (List.take_sublist _ _) hp

theorem length_topProducts (data : List ModelRow) (n : Nat) :
    (topProducts data n).length =
      min n (dropDuplicates (data.map (fun r => r.product_id))).length := by
  rw [topProducts, List.length_take, List.length_map,
      (List.perm_insertionSort countGE (value_counts data)).length_eq,
      value_counts, List.length_map]

theorem topProducts_perm_of_le (data : List ModelRow) (n : Nat)
    (h : (dropDuplicates (data.map (fun r => r.product_id))).length ≤ n) :
    (topProducts data n).Perm
      (dropDuplicates (data.map (fun r => r.product_id))) := by
  rw [topProducts, List.take_of_length_le]
  · exact map_fst_value_counts data ▸
      ((List.perm_insertionSort countGE (value_counts data)).map Prod.fst)
  · rw [List.length_map,
      (List.perm_insertionSort countGE (value_counts data)).length_eq,
      value_counts, List.length_map]
    exact h

/-- C7: `find_popular_items` counts product occurrences and returns the top
`n_recs` in descending count order.  At purchase counts A:5, B:3, C:3, D:1
with N = 2 the output contains A and exactly one of B, C; in general the
output is sorted by descending count, has `min n` (distinct count) entries,
and only lists products present in the data. -/
theorem find_popular_items_spec :
    ("A" ∈ find_popular_items hotData 2 ∧
     (("B" ∈ find_popular_items hotData 2 ∧
       "C" ∉ find_popular_items hotData 2) ∨
      ("C" ∈ find_popular_items hotData 2 ∧
       "B" ∉ find_popular_items hotData 2))) ∧
    (∀ (data : List ModelRow) (n : Nat),
      (find_popular_items data n).Sorted
          (fun p q => productCount data q ≤ productCount data p) ∧
      (find_popular_items data n).length =
        min n (dropDuplicates (data.map (fun r => r.product_id))).length ∧
      ∀ p ∈ find_popular_items data n, ∃ r ∈ data, r.product_id = p) :=
  ⟨by decide,
   fun data n => ⟨sorted_topProducts data n, length_topProducts data n,
     fun p hp => mem_topProducts data n p hp⟩⟩

theorem find_popular_items_spec_witness :
    ∃ r ∈ hotData, r.product_id = "A" :=
  (find_popular_items_spec.2 hotData 2).2.2 "A" (by decide)

/-- C10: taking the top N is total even when N exceeds the number of
distinct products — both the global ranking and the per-state ranking then
return all distinct products (as a permutation of the deduplicated product
column) without error. -/
theorem top_n_exceeding_total (data : List ModelRow) (n : Nat) :
    ((dropDuplicates (data.map (fun r => r.product_id))).length ≤ n →
      (find_popular_items data n).Perm
        (dropDuplicates (data.map (fun r => r.product_id)))) ∧
    (∀ st : String,
      (dropDuplicates ((data.filter (fun r => r.customer_state = st)).map
          (fun r => r.product_id))).length ≤ n →
        (stateTopItems data n st).Perm
          (dropDuplicates ((data.filter
            (fun r => r.customer_state = st)).map (fun r => r.product_id)))) :=
  ⟨fun h => topProducts_perm_of_le data n h,
   fun _ h => topProducts_perm_of_le _ n h⟩

theorem top_n_exceeding_total_witness :
    (find_popular_items areaData 10).Perm
        (dropDuplicates (areaData.map (fun r => r.product_id))) ∧
    (stateTopItems areaData 10 "RJ").Perm
        (dropDuplicates ((areaData.filter
          (fun r => r.customer_state = "RJ")).map (fun r => r.product_id))) :=
  ⟨(top_n_exceeding_total areaData 10).1 (by decide),
   (top_n_exceeding_total areaData 10).2 "RJ" (by decide)⟩

/-- C8 counterexample: with SP holding two distinct products and RJ a
single one, the per-state lists have unequal lengths, so `pd.DataFrame` on
the dict of `Index` values raises instead of producing a padded table — no
output table exists for this input. -/
theorem popular_in_your_area_cex :
    popular_in_your_area areaData 2 =
      .error "ValueError: All arrays must be of the same length" ∧
    stateTopItems areaData 2 "SP" = ["p1", "p2"] ∧
    stateTopItems areaData 2 "RJ" = ["p3"] :=
  ⟨rfl, by decide, by decide⟩

/-- C8 amended: each per-state list ranks only products purchased in that
state (never padded from other states), a state whose rows hold exactly one
distinct product yields a single-entry list, and the assembled table is
produced exactly when all per-state lists have equal length — otherwise the
run fails with a length-mismatch error instead of padding with missing
values. -/
theorem popular_in_your_area_amended :
    (∀ (data : List ModelRow) (n : Nat) (st p : String),
        p ∈ stateTopItems data n st →
        ∃ r ∈ data, r.customer_state = st ∧ r.product_id = p) ∧
    (∀ (data : List ModelRow) (n : Nat) (st : String), 1 ≤ n →
      ∀ p : String,
        dropDuplicates ((data.filter (fun r => r.customer_state = st)).map
          (fun r => r.product_id)) = [p] →
        stateTopItems data n st = [p]) ∧
    (∀ (data : List ModelRow) (n : Nat),
        popular_in_your_area data n =
            .ok ((unique_states data).map
              (fun st => (st, stateTopItems data n st))) ↔
          allSameLength ((unique_states data).map
            (fun st => (stateTopItems data n st).length)) = true) := by
  refine ⟨?_, ?_, ?_⟩
  · intro data n st p hp
    obtain ⟨r, hr, hpr⟩ := mem_topProducts _ n p hp
    rw [List.mem_filter] at hr
    exact ⟨r, hr.1, by simpa using hr.2, hpr⟩
  · intro data n st hn p hsingle
    rw [stateTopItems, topProducts, value_counts, hsingle]
    cases n with
    | zero => omega
    | succ m => simp [List.insertionSort, List.orderedInsert]
  · intro data n
    rw [popular_in_your_area]
    simp only [List.map_map]
    have hmap : ((fun c : String × List String => c.2.length) ∘
        fun st => (st, stateTopItems data n st)) =
        fun st => (stateTopItems data n st).length := rfl
    rw [hmap]
    by_cases hc : allSameLength ((unique_states data).map
        (fun st => (stateTopItems data n st).length)) = true
    · rw [if_pos hc]
      simp [hc]
    · rw [if_neg hc]
      constructor
      · intro he
        cases he
      · intro hc2
        exact absurd hc2 hc

theorem popular_in_your_area_amended_witness :
    (∃ r ∈ areaData, r.customer_state = "RJ" ∧ r.product_id = "p3") ∧
    stateTopItems areaData 2 "RJ" = ["p3"] ∧
    (popular_in_your_area areaData 1 =
        .ok ((unique_states areaData).map
          (fun st => (st, stateTopItems areaData 1 st))) ↔
      allSameLength ((unique_states areaData).map
        (fun st => (stateTopItems areaData 1 st).length)) = true) :=
  ⟨popular_in_your_area_amended.1 areaData 2 "RJ" "p3" (by decide),
   popular_in_your_area_amended.2.1 areaData 2 "RJ" (by omega) "p3" (by decide),
   popular_in_your_area_amended.2.2 areaData 1⟩
